import Mathlib

/-!
Shallow embedding of the `gn_work_tracker` work-log program
(`src/gn_work_log/tasks.py` and `src/gn_work_log/main.py`).

Python `datetime` values are modelled structurally by their calendar and
clock components (the program only builds timezone-aware UTC datetimes, so
the timezone is left implicit).  Python exceptions become an explicit error
type; a raising method returns `PyResult.exn` carrying, alongside the
error, the state of the object at the moment of the raise (Python mutates
`self` in place, so a method that mutated before raising leaves the
mutation behind).
-/

namespace GnWorkLog

/-- The Python exceptions raised by the program, by class.  `keyError`
carries the missing key, `lookupError` and `runtimeError` carry the exact
message string built by the source (for the two `LookupError`s of
`update_task` the message distinguishes "no match" from "ambiguous").
`typeError` messages interpolate the task uuid and times and are not
modelled beyond the class. -/
inductive PyErr where
  | runtimeError : String → PyErr
  | typeError : PyErr
  | indexError : PyErr
  | valueError : String → PyErr
  | keyError : String → PyErr
  | lookupError : String → PyErr
  | attributeError : String → PyErr
deriving DecidableEq

instance exceptDecEq {ε α : Type} [DecidableEq ε] [DecidableEq α] : DecidableEq (Except ε α) :=
  fun a b =>
  match a, b with
  | .ok x, .ok y => if h : x = y then .isTrue (by rw [h]) else .isFalse (by simp [h])
  | .error x, .error y => if h : x = y then .isTrue (by rw [h]) else .isFalse (by simp [h])
  | .ok _, .error _ => .isFalse (by simp)
  | .error _, .ok _ => .isFalse (by simp)

/-- Result of running a Python method on an object: either a normal return
carrying the new state, or an exception carrying the state of the object
at the moment the exception was raised (mutations made before the raise
are kept, as in Python). -/
inductive PyResult (α : Type) where
  | ok : α → PyResult α
  | exn : PyErr → α → PyResult α
deriving DecidableEq

/-- The object state after the call, whether it returned or raised. -/
def PyResult.state {α : Type} : PyResult α → α
  | .ok a => a
  | .exn _ a => a

/-- A Python `datetime.datetime` (timezone-aware UTC), by components, as
used throughout `tasks.py`. -/
structure PyDateTime where
  year : Nat
  month : Nat
  day : Nat
  hour : Nat
  minute : Nat
  second : Nat
  usec : Nat
deriving DecidableEq

/-- Python `calendar` leap-year rule used by `datetime`. -/
def isLeapYear (y : Nat) : Bool := y % 4 == 0 && (y % 100 != 0 || y % 400 == 0)

/-- Length of a month, as enforced by the `datetime` constructor. -/
def daysInMonth (y m : Nat) : Nat :=
  if m = 2 then (if isLeapYear y then 29 else 28)
  else if m = 4 ∨ m = 6 ∨ m = 9 ∨ m = 11 then 30 else 31

/-- The representation invariant of a Python `datetime`: its constructor
rejects anything outside these ranges, so every datetime object the
program ever holds satisfies this. -/
def PyDateTime.valid (d : PyDateTime) : Prop :=
  1 ≤ d.year ∧ d.year ≤ 9999 ∧ 1 ≤ d.month ∧ d.month ≤ 12 ∧
  1 ≤ d.day ∧ d.day ≤ daysInMonth d.year d.month ∧
  d.hour ≤ 23 ∧ d.minute ≤ 59 ∧ d.second ≤ 59 ∧ d.usec ≤ 999999

instance (d : PyDateTime) : Decidable d.valid := by
  unfold PyDateTime.valid
  infer_instance

/-- Serial day number of a Gregorian calendar date (days-from-civil
algorithm, March-based, valid for `year ≥ 1`).  Only differences of this
number ever matter: it gives Python `datetime` subtraction its day
component. -/
def daysFromCivil (y m d : Nat) : Nat :=
  let y2 := if m ≤ 2 then y - 1 else y
  let era := y2 / 400
  let yoe := y2 % 400
  let mp := (m + 9) % 12
  let doy := (153 * mp + 2) / 5 + d - 1
  let doe := yoe * 365 + yoe / 4 - yoe / 100 + doy
  era * 146097 + doe

/-- Microseconds since local midnight. -/
def todUsec (d : PyDateTime) : Nat :=
  (d.hour * 3600 + d.minute * 60 + d.second) * 1000000 + d.usec

/-- The datetime as a single microsecond count on the day-number axis;
Python `datetime` subtraction is the difference of these counts. -/
def toUsec (d : PyDateTime) : Int :=
  (daysFromCivil d.year d.month d.day : Int) * 86400000000 + (todUsec d : Int)

/-- Python `d.date()` as the calendar triple; two datetimes compare
`.date()`-equal iff these agree. -/
def pyDate (d : PyDateTime) : Nat × Nat × Nat := (d.year, d.month, d.day)

/-- Python `(a - b).seconds`: the `timedelta` between two datetimes is
normalized to `days/seconds/microseconds` with `0 ≤ seconds < 86400`
(floor divmod), and `.seconds` reads the middle component, discarding the
day component and the sub-second remainder. -/
def tdSeconds (a b : PyDateTime) : Int :=
  ((toUsec a - toUsec b) % 86400000000) / 1000000

/-- The `TaskStates` string enum of `tasks.py` (a `StrEnum`: each member
equals its string value, and deserialized tasks carry the raw string, so
status is modelled as `String` throughout). -/
def TaskStates.CREATED : String := "CREATED"

def TaskStates.RUNNING : String := "RUNNING"

def TaskStates.PAUSED : String := "PAUSED"

def TaskStates.COMPLETED : String := "COMPLETED"

/-- The `Task` dataclass of `tasks.py`.  `uuid` is modelled as the string
rendering the program compares and serializes. -/
structure Task where
  uuid : String
  description : String
  status : String
  times : List (PyDateTime × Option PyDateTime)
  notes : List String
deriving DecidableEq

/-- Loop body of `Task.minutes`: walks `self.times` accumulating
`(end - start).seconds`, substituting `now` for an unset end, and raising
`RuntimeError` when an interval's end falls on a different calendar day
than its start. -/
def minutesAux (now : PyDateTime) :
    List (PyDateTime × Option PyDateTime) → Int → Except PyErr Int
  | [], acc => .ok acc
  | (s, e) :: rest, acc =>
    let e' := e.getD now
    if pyDate e' ≠ pyDate s then
      .error (.runtimeError "We expect all end dates to happen in the same day")
    else minutesAux now rest (acc + tdSeconds e' s)

/-- `Task.minutes` (`tasks.py` lines 49–57): total of the per-interval
`.seconds` differences, divided by 60.  Python's float division is
modelled as exact rational division. -/
def Task.minutes (t : Task) (now : PyDateTime) : Except PyErr ℚ :=
  (minutesAux now t.times 0).map (fun s => (s : ℚ) / 60)

/-- Second half of `Task.start` (`tasks.py` lines 74–82), applied after
the status block: if the list is nonempty, the last pair is checked to
consist of two actual datetimes — the start of a pair always is one, so
the `isinstance` guard amounts to the end being set — and `TypeError` is
raised otherwise; then a fresh open interval `(now, None)` is appended. -/
def startGuardAppend (t1 : Task) (now : PyDateTime) : PyResult Task :=
  match t1.times.getLast? with
  | some (_, none) => .exn .typeError t1
  | _ => .ok { t1 with times := t1.times ++ [(now, none)] }

/-- `Task.start` (`tasks.py` lines 71–82): the status is promoted to
`RUNNING` only from `CREATED`/`PAUSED`, and that mutation happens before
the interval guard and append. -/
def Task.start (t : Task) (now : PyDateTime) : PyResult Task :=
  startGuardAppend
    (if t.status = TaskStates.CREATED ∨ t.status = TaskStates.PAUSED then
      { t with status := TaskStates.RUNNING }
    else t) now

/-- Shared tail of `Task.pause` and `Task.complete` (`tasks.py` lines
89–96 and 103–110), run after the status write: `self.times[-1]` raises
`IndexError` on an empty list, a `TypeError` is raised if the last
interval is already closed, and otherwise the last interval's end is set
to `now`. -/
def closeLast (t1 : Task) (now : PyDateTime) : PyResult (Task × List String) :=
  match t1.times.getLast? with
  | none => .exn .indexError (t1, [])
  | some (_, some _) => .exn .typeError (t1, [])
  | some (s, none) => .ok ({ t1 with times := t1.times.dropLast ++ [(s, some now)] }, [])

/-- `Task.pause` (`tasks.py` lines 84–96).  Returns the new task state
together with the lines printed.  When not `RUNNING`: prints a notice and
returns unchanged.  Otherwise the status is set to `PAUSED` first and the
open interval is closed. -/
def Task.pause (t : Task) (now : PyDateTime) : PyResult (Task × List String) :=
  if t.status ≠ TaskStates.RUNNING then .ok (t, ["Task is not running"])
  else closeLast { t with status := TaskStates.PAUSED } now

/-- `Task.complete` (`tasks.py` lines 98–110): identical to `pause` except
the status written is `COMPLETED`. -/
def Task.complete (t : Task) (now : PyDateTime) : PyResult (Task × List String) :=
  if t.status ≠ TaskStates.RUNNING then .ok (t, ["Task is not running"])
  else closeLast { t with status := TaskStates.COMPLETED } now

/-- `Task.add_note` (`tasks.py` lines 112–113): appends to `notes`. -/
def Task.add_note (t : Task) (note : String) : Task :=
  { t with notes := t.notes ++ [note] }

/-- ASCII digit for `n < 10`, as emitted by `strftime`'s zero padding. -/
def digitChar (n : Nat) : Char := Char.ofNat (48 + n)

/-- One digit of `strptime` numeric parsing. -/
def parseDigit (c : Char) : Option Nat :=
  if 48 ≤ c.toNat ∧ c.toNat ≤ 57 then some (c.toNat - 48) else none

/-- Two-digit zero-padded field (`%m`, `%d`, `%H`, `%M`). -/
def pad2 (n : Nat) : List Char := [digitChar (n / 10), digitChar (n % 10)]

/-- Four-digit zero-padded field (`%Y`). -/
def pad4 (n : Nat) : List Char :=
  [digitChar (n / 1000), digitChar (n / 100 % 10), digitChar (n / 10 % 10), digitChar (n % 10)]

/-- Two-digit numeric field of `strptime`. -/
def parse2 (a b : Char) : Option Nat :=
  match parseDigit a, parseDigit b with
  | some x, some y => some (10 * x + y)
  | _, _ => none

/-- Four-digit numeric field of `strptime`. -/
def parse4 (a b c d : Char) : Option Nat :=
  match parseDigit a, parseDigit b, parseDigit c, parseDigit d with
  | some x, some y, some z, some w => some (1000 * x + 100 * y + 10 * z + w)
  | _, _, _, _ => none

/-- `dt.strftime(DATE_FORMAT)` with `DATE_FORMAT = "%Y-%m-%dT%H:%M"`
(`tasks.py` line 9): seconds and microseconds are not rendered. -/
def fmtDateTime (d : PyDateTime) : String :=
  String.mk (pad4 d.year ++ '-' :: (pad2 d.month ++ '-' ::
    (pad2 d.day ++ 'T' :: (pad2 d.hour ++ ':' :: pad2 d.minute))))

/-- `datetime.strptime(s, DATE_FORMAT)` (plus the `replace(tzinfo=utc)`
that follows it, which the implicit-UTC model makes a no-op), modelled on
the zero-padded canonical strings — the only shape `serialize` ever emits.
Field ranges are validated as `strptime`/the `datetime` constructor do;
the parsed datetime has second and microsecond zero. -/
def parseDateTime (str : String) : Option PyDateTime :=
  match str.data with
  | [y1, y2, y3, y4, c1, m1, m2, c2, d1, d2, c3, h1, h2, c4, n1, n2] =>
    if c1 = '-' ∧ c2 = '-' ∧ c3 = 'T' ∧ c4 = ':' then
      match parse4 y1 y2 y3 y4, parse2 m1 m2, parse2 d1 d2, parse2 h1 h2, parse2 n1 n2 with
      | some y, some mo, some dd, some hh, some mi =>
        if 1 ≤ y ∧ 1 ≤ mo ∧ mo ≤ 12 ∧ 1 ≤ dd ∧ dd ≤ daysInMonth y mo ∧ hh ≤ 23 ∧ mi ≤ 59
        then some ⟨y, mo, dd, hh, mi, 0, 0⟩ else none
      | _, _, _, _, _ => none
    else none
  | _ => none

/-- Python `str.lower()` (character-wise). -/
def pyLower (s : String) : String := String.mk (s.data.map Char.toLower)

/-- A task record as stored in the TOML document: the dict shape consumed
by `TomlHelper.deserialize` and produced by `TomlHelper.serialize` (the
optional `minutes` entry, deleted on load and only added under
`with_minutes=True`, is not part of the round-tripped shape). -/
structure TaskRecord where
  uuid : String
  description : String
  status : String
  times : List (String × String)
  notes : List String
deriving DecidableEq

/-- The `times` loop of `TomlHelper.deserialize` (`tasks.py` lines
119–127): each start is `strptime`-parsed (a bad string raises
`ValueError`), each end is `None` when it lowercases to `"none"` and is
parsed otherwise. -/
def parseTimes : List (String × String) → Except PyErr (List (PyDateTime × Option PyDateTime))
  | [] => .ok []
  | (x, y) :: rest =>
    match parseDateTime x with
    | none => .error (.valueError x)
    | some s =>
      if pyLower y = "none" then
        match parseTimes rest with
        | .error er => .error er
        | .ok ts => .ok ((s, none) :: ts)
      else
        match parseDateTime y with
        | none => .error (.valueError y)
        | some e =>
          match parseTimes rest with
          | .error er => .error er
          | .ok ts => .ok ((s, some e) :: ts)

/-- `TomlHelper.deserialize` (`tasks.py` lines 117–131): parses the times
and rebuilds the dataclass with the remaining fields verbatim. -/
def TomlHelper.deserialize (r : TaskRecord) : Except PyErr Task :=
  match parseTimes r.times with
  | .error er => .error er
  | .ok ts => .ok ⟨r.uuid, r.description, r.status, ts, r.notes⟩

/-- The end-timestamp rendering of `TomlHelper.serialize`: a closed end is
`strftime`-formatted, an open end becomes `str(None)`, which is the
four-character string `"None"` (capital N). -/
def serializeEnd : Option PyDateTime → String
  | none => "None"
  | some e => fmtDateTime e

/-- `TomlHelper.serialize` with the default `with_minutes=False`
(`tasks.py` lines 133–151). -/
def TomlHelper.serialize (t : Task) : TaskRecord :=
  ⟨t.uuid, t.description, t.status,
   t.times.map (fun p => (fmtDateTime p.1, serializeEnd p.2)), t.notes⟩

/-- A datetime with seconds and microseconds dropped: what survives a trip
through `DATE_FORMAT`. -/
def truncateTs (d : PyDateTime) : PyDateTime := { d with second := 0, usec := 0 }

/-- `matchFrom needle hay`: the needle occurs at the head of the hay. -/
def matchFrom : List Char → List Char → Bool
  | [], _ => true
  | _ :: _, [] => false
  | a :: as, b :: bs => a = b && matchFrom as bs

/-- Substring occurrence over char lists. -/
def containsSubCL (needle : List Char) : List Char → Bool
  | [] => matchFrom needle []
  | c :: rest => matchFrom needle (c :: rest) || containsSubCL needle rest

/-- Python `needle in hay` on strings: substring containment (true for the
empty needle). -/
def pyIn (needle hay : String) : Bool := containsSubCL needle.data hay.data

/-- The `Actions` string enum of `main.py`. -/
inductive Actions where
  | start
  | pause
  | complete
  | note
deriving DecidableEq

/-- The `match action` block of `TomlDocument.update_task` (`main.py`
lines 161–173), applied to the resolved task: `note` of an unset or empty
string raises `AttributeError`; the lifecycle actions defer to the task
methods (whose printed lines are forwarded). -/
def applyAction (t : Task) (a : Actions) (note : Option String) (now : PyDateTime) :
    PyResult (Task × List String) :=
  match a with
  | .start =>
    match t.start now with
    | .ok t' => .ok (t', [])
    | .exn er t' => .exn er (t', [])
  | .pause => t.pause now
  | .complete => t.complete now
  | .note =>
    match note with
    | none => .exn (.attributeError "Expected valid note") (t, [])
    | some s =>
      if s = "" then .exn (.attributeError "Expected valid note") (t, [])
      else .ok (t.add_note s, [])

/-- In-place mutation of the resolved task object, as seen by the store:
the date's list keeps every task except that the matched object now holds
the updated state.  (Used only when exactly one task matches, so the
predicate identifies the single mutated object.) -/
def replaceStore (store : List (String × List Task)) (key frag : String) (t' : Task) :
    List (String × List Task) :=
  store.map (fun p =>
    if p.1 = key then (p.1, p.2.map (fun x => if pyIn frag x.uuid then t' else x)) else p)

/-- `TomlDocument.update_task` (`main.py` lines 149–173) over the
in-memory `tasks_data` map (modelled as an association list; `dict`
lookup on a missing date key raises `KeyError`).  The result carries the
persisted store: `self.write()` runs only on full success, so every
raising path leaves the store as it was. -/
def TomlDocument.update_task (tasks_data : List (String × List Task))
    (working_key frag : String) (a : Actions) (note : Option String) (now : PyDateTime) :
    PyResult (List (String × List Task)) :=
  match tasks_data.lookup working_key with
  | none => .exn (.keyError working_key) tasks_data
  | some today_tasks =>
    match today_tasks.filter (fun x => pyIn frag x.uuid) with
    | [] =>
      .exn (.lookupError ("No tasks found. Try to use the correct uuid. Used " ++ frag))
        tasks_data
    | [tk] =>
      match applyAction tk a note now with
      | .ok (tk', _) => .ok (replaceStore tasks_data working_key frag tk')
      | .exn er _ => .exn er tasks_data
    | _ :: _ :: _ =>
      .exn (.lookupError ("More than 1 task found. Try to add more text to your uuid. Used " ++ frag))
        tasks_data

/-- The collection phase of `TomlDocument.errors` (`main.py` lines
175–188): every date other than today contributes its non-`COMPLETED`
tasks, dates with none are left out.  The `today` key is a parameter
(the source computes it from the wall clock). -/
def TomlDocument.errorsDict (tasks_data : List (String × List Task)) (today_key : String) :
    List (String × List Task) :=
  tasks_data.filterMap (fun p =>
    if p.1 = today_key then none
    else
      let errTasks := p.2.filter (fun t => t.status ≠ TaskStates.COMPLETED)
      if errTasks.isEmpty then none else some (p.1, errTasks))

/-- Attribute lookup `t.report` in `main.py` line 193: the `Task`
dataclass defines no method named `report` (only `terminal_report` and
`terminal_report_with_uuid` exist), so evaluating `t.report()` raises
`AttributeError` unconditionally. -/
def Task.reportAttr (_t : Task) : Except PyErr String :=
  .error (.attributeError "report")

/-- The printing loop over one flagged date's tasks (`main.py` lines
192–193), accumulating printed lines until the attribute lookup raises. -/
def printErrTasks : List Task → List String → PyResult (List String)
  | [], acc => .ok acc
  | t :: rest, acc =>
    match t.reportAttr with
    | .error er => .exn er acc
    | .ok line => printErrTasks rest (acc ++ [line])

/-- The reporting loop over the flagged dates (`main.py` lines 190–193):
prints the colourized date header, then each task. -/
def printErrDates : List (String × List Task) → List String → PyResult (List String)
  | [], acc => .ok acc
  | (date, ts) :: rest, acc =>
    match printErrTasks ts (acc ++ ["\x1b[1;33m" ++ date ++ "\x1b[0m"]) with
    | .ok acc' => printErrDates rest acc'
    | .exn er acc' => .exn er acc'

/-- `TomlDocument.errors` (`main.py` lines 175–194) end to end, returning
the lines printed (or the exception and the lines printed up to it). -/
def TomlDocument.errors (tasks_data : List (String × List Task)) (today_key : String) :
    PyResult (List String) :=
  let errs := TomlDocument.errorsDict tasks_data today_key
  if errs.isEmpty then .ok ["No errors found"]
  else printErrDates errs []

/-- End-timestamp validity: holds of a closed end, vacuous for an open one. -/
def endValid (o : Option PyDateTime) : Prop :=
  match o with
  | none => True
  | some e => e.valid

instance (o : Option PyDateTime) : Decidable (endValid o) :=
  match o with
  | none => .isTrue trivial
  | some e => inferInstanceAs (Decidable e.valid)

/-- The interval-list invariant of the spec: every interval before the
last one is closed (hence at most one interval is open and it can only be
the last element). -/
def timesInv (l : List (PyDateTime × Option PyDateTime)) : Prop :=
  ∀ p ∈ l.dropLast, p.2 ≠ none

/-- The invariant read on a task. -/
def Task.intervalsInv (t : Task) : Prop := timesInv t.times

instance (l : List (PyDateTime × Option PyDateTime)) : Decidable (timesInv l) := by
  unfold timesInv
  infer_instance

instance (t : Task) : Decidable t.intervalsInv := by
  unfold Task.intervalsInv
  infer_instance

/-- Whether the last interval of the list is open. -/
def lastOpenB (l : List (PyDateTime × Option PyDateTime)) : Bool :=
  match l.getLast? with
  | some (_, none) => true
  | _ => false

def w1Task : Task :=
  ⟨"a1b2", "write report", "RUNNING",
   [(⟨2024, 7, 3, 10, 0, 0, 0⟩, some ⟨2024, 7, 3, 10, 1, 30, 0⟩),
    (⟨2024, 7, 3, 10, 5, 0, 0⟩, none)], []⟩

def w1Now : PyDateTime := ⟨2024, 7, 3, 10, 5, 30, 0⟩

def cex6Task : Task :=
  ⟨"u6", "inverted", "COMPLETED",
   [(⟨2024, 7, 3, 10, 1, 0, 0⟩, some ⟨2024, 7, 3, 10, 0, 0, 0⟩)], []⟩

def cex6Now : PyDateTime := ⟨2024, 7, 3, 12, 0, 0, 0⟩

def w6Task : Task :=
  ⟨"w6", "crosses midnight", "RUNNING",
   [(⟨2024, 7, 3, 23, 50, 0, 0⟩, none)], []⟩

def w6Now : PyDateTime := ⟨2024, 7, 4, 0, 10, 0, 0⟩

def cex3Task : Task :=
  ⟨"c3", "already finished", "COMPLETED",
   [(⟨2024, 7, 3, 8, 0, 0, 0⟩, some ⟨2024, 7, 3, 8, 30, 0, 0⟩)], []⟩

def cex3Now : PyDateTime := ⟨2024, 7, 3, 9, 0, 0, 0⟩

def w3Task : Task := ⟨"w3", "fresh", "CREATED", [], []⟩

def w3Now : PyDateTime := ⟨2024, 7, 3, 8, 0, 0, 0⟩

def w4Task : Task :=
  ⟨"w4", "being tracked", "RUNNING",
   [(⟨2024, 7, 3, 9, 0, 0, 0⟩, some ⟨2024, 7, 3, 9, 10, 0, 0⟩),
    (⟨2024, 7, 3, 9, 20, 0, 0⟩, none)], []⟩

def w4Now : PyDateTime := ⟨2024, 7, 3, 9, 30, 0, 0⟩

def w2Task : Task :=
  ⟨"b7", "in flight", "RUNNING", [(⟨2024, 7, 3, 9, 0, 0, 0⟩, none)], []⟩

def w2Now : PyDateTime := ⟨2024, 7, 3, 9, 30, 0, 0⟩

def canonicalTs (str : String) : Prop :=
  ∃ d : PyDateTime, d.valid ∧ d.second = 0 ∧ d.usec = 0 ∧ fmtDateTime d = str

def TaskRecord.wellFormedRT (r : TaskRecord) : Prop :=
  ∀ p ∈ r.times, canonicalTs p.1 ∧ (p.2 = "None" ∨ canonicalTs p.2)

def cex5Rec : TaskRecord :=
  ⟨"u5", "roundtrip", "CREATED", [("2024-07-03T10:00", "none")], []⟩

def w5Rec : TaskRecord :=
  ⟨"u5w", "kept", "PAUSED",
   [("2024-07-03T10:00", "2024-07-03T10:30"), ("2024-07-03T11:00", "None")], ["note a"]⟩

def w9Task : Task :=
  ⟨"w9", "live timestamps", "COMPLETED",
   [(⟨2024, 7, 3, 10, 0, 12, 345678⟩, some ⟨2024, 7, 3, 10, 1, 42, 9⟩)], []⟩

def w7Tasks : List Task :=
  [⟨"aaa1", "first", "CREATED", [], []⟩, ⟨"bbb2", "second", "CREATED", [], []⟩]

def w7Store : List (String × List Task) := [("2024-07-03", w7Tasks)]

def w10Store : List (String × List Task) :=
  [("2024-07-03", [⟨"aaa1", "only task", "CREATED", [], []⟩])]

def runTask8 : Task :=
  ⟨"r8", "left running yesterday", "RUNNING", [(⟨2024, 7, 3, 9, 0, 0, 0⟩, none)], []⟩

def doneTask8 : Task :=
  ⟨"c8", "finished yesterday", "COMPLETED",
   [(⟨2024, 7, 3, 9, 0, 0, 0⟩, some ⟨2024, 7, 3, 9, 30, 0, 0⟩)], []⟩

def todayTask8 : Task := ⟨"t8", "in progress today", "CREATED", [], []⟩

def store8 : List (String × List Task) :=
  [("2024-07-03", [runTask8, doneTask8]), ("2024-07-04", [todayTask8])]

theorem parseDigit_digitChar : ∀ k, k < 10 → parseDigit (digitChar k) = some k := by decide

theorem parse2_pad2 (n : Nat) (h : n < 100) :
    parse2 (digitChar (n / 10)) (digitChar (n % 10)) = some n := by
  unfold parse2
  rw [parseDigit_digitChar (n / 10) (by omega), parseDigit_digitChar (n % 10) (by omega)]
  simp
  omega

theorem parse4_pad4 (n : Nat) (h : n < 10000) :
    parse4 (digitChar (n / 1000)) (digitChar (n / 100 % 10)) (digitChar (n / 10 % 10))
      (digitChar (n % 10)) = some n := by
  unfold parse4
  rw [parseDigit_digitChar (n / 1000) (by omega), parseDigit_digitChar (n / 100 % 10) (by omega),
    parseDigit_digitChar (n / 10 % 10) (by omega), parseDigit_digitChar (n % 10) (by omega)]
  simp
  omega

/-- Formatting is insensitive to the seconds and microseconds fields. -/
theorem fmtDateTime_truncateTs (d : PyDateTime) :
    fmtDateTime (truncateTs d) = fmtDateTime d := rfl

/-- Every month length is at most 31. -/
theorem daysInMonth_le (y m : Nat) : daysInMonth y m ≤ 31 := by
  unfold daysInMonth
  split <;> split <;> omega

/-- Parsing a formatted valid datetime recovers it up to dropping seconds
and microseconds. -/
theorem parseDateTime_fmtDateTime (d : PyDateTime) (h : d.valid) :
    parseDateTime (fmtDateTime d) = some (truncateTs d) := by
  obtain ⟨h1, h2, h3, h4, h5, h6, h7, h8, h9, h10⟩ := h
  have hd31 : d.day ≤ 31 := h6.trans (daysInMonth_le _ _)
  simp only [parseDateTime, fmtDateTime, pad4, pad2, List.cons_append, List.nil_append]
  rw [parse4_pad4 d.year (by omega), parse2_pad2 d.month (by omega),
    parse2_pad2 d.day (by omega), parse2_pad2 d.hour (by omega),
    parse2_pad2 d.minute (by omega)]
  show (if 1 ≤ d.year ∧ 1 ≤ d.month ∧ d.month ≤ 12 ∧ 1 ≤ d.day ∧
      d.day ≤ daysInMonth d.year d.month ∧ d.hour ≤ 23 ∧ d.minute ≤ 59 then
      some ⟨d.year, d.month, d.day, d.hour, d.minute, 0, 0⟩ else none) = some (truncateTs d)
  rw [if_pos ⟨h1, h3, h4, h5, h6, h7, h8⟩]
  rfl

/-- A formatted timestamp never lowercases to the `"none"` sentinel (it
has sixteen characters, the sentinel four). -/
theorem pyLower_fmtDateTime_ne (d : PyDateTime) : pyLower (fmtDateTime d) ≠ "none" := by
  intro h
  have hlen : (pyLower (fmtDateTime d)).data.length = 16 := by
    simp [pyLower, fmtDateTime, pad4, pad2]
  rw [h] at hlen
  exact absurd hlen (by decide)

/-- Time-of-day microseconds of a valid datetime stay below one day. -/
theorem todUsec_lt (d : PyDateTime) (h : d.valid) : todUsec d < 86400000000 := by
  obtain ⟨_, _, _, _, _, _, h7, h8, h9, h10⟩ := h
  unfold todUsec
  omega

/-- Two datetimes on the same calendar date differ only by time of day. -/
theorem toUsec_sub_of_pyDate_eq {a b : PyDateTime} (h : pyDate a = pyDate b) :
    toUsec a - toUsec b = (todUsec a : Int) - (todUsec b : Int) := by
  unfold pyDate at h
  obtain ⟨hy, hm, hd⟩ : a.year = b.year ∧ a.month = b.month ∧ a.day = b.day := by
    simpa [Prod.ext_iff] using h
  unfold toUsec
  rw [hy, hm, hd]
  ring

/-- For a same-day, ordered pair of valid datetimes, the `timedelta`
`.seconds` reading is the plain whole-second difference. -/
theorem tdSeconds_of_le {a b : PyDateTime} (ha : a.valid)
    (hd : pyDate a = pyDate b) (hle : toUsec b ≤ toUsec a) :
    tdSeconds a b = (toUsec a - toUsec b) / 1000000 := by
  unfold tdSeconds
  have h1 := toUsec_sub_of_pyDate_eq hd
  have h2 := todUsec_lt a ha
  have h3 : (0 : Int) ≤ todUsec b := Int.ofNat_nonneg _
  have : (toUsec a - toUsec b) % 86400000000 = toUsec a - toUsec b := by omega
  rw [this]

/-- The `minutes` loop on well-formed interval lists: every interval
same-day and forward-ordered makes the loop return the accumulated plain
second differences. -/
theorem minutesAux_ok (now : PyDateTime) :
    ∀ (l : List (PyDateTime × Option PyDateTime)) (acc : Int),
    (∀ p ∈ l, (p.1).valid ∧ (p.2.getD now).valid ∧
      pyDate (p.2.getD now) = pyDate p.1 ∧ toUsec p.1 ≤ toUsec (p.2.getD now)) →
    minutesAux now l acc =
      .ok (acc + (l.map (fun p => (toUsec (p.2.getD now) - toUsec p.1) / 1000000)).sum) := by
  intro l
  induction l with
  | nil => intro acc _; simp [minutesAux]
  | cons p rest ih =>
    intro acc h
    obtain ⟨h1, h2, h3, h4⟩ := h p (List.mem_cons_self p rest)
    obtain ⟨s, e⟩ := p
    simp only [minutesAux]
    rw [if_neg (by simpa using h3)]
    rw [tdSeconds_of_le h2 h3 h4]
    rw [ih _ (fun q hq => h q (List.mem_cons_of_mem _ hq))]
    simp only [List.map_cons, List.sum_cons]
    congr 1
    ring

/-- The `minutes` loop raises the same-day `RuntimeError` as soon as any
interval crosses a calendar day. -/
theorem minutesAux_error (now : PyDateTime) :
    ∀ (l : List (PyDateTime × Option PyDateTime)) (acc : Int),
    (∃ p ∈ l, pyDate (p.2.getD now) ≠ pyDate p.1) →
    minutesAux now l acc =
      .error (.runtimeError "We expect all end dates to happen in the same day") := by
  intro l
  induction l with
  | nil => intro acc h; simp at h
  | cons p rest ih =>
    intro acc h
    obtain ⟨s, e⟩ := p
    simp only [minutesAux]
    by_cases hc : pyDate (e.getD now) ≠ pyDate s
    · rw [if_pos (by simpa using hc)]
    · rw [if_neg (by simpa using hc)]
      apply ih
      rcases h with ⟨q, hq, hqc⟩
      rcases List.mem_cons.mp hq with hq1 | hq2
      · exact absurd (by rw [hq1] at hqc; simpa using hqc) (by simpa using hc)
      · exact ⟨q, hq2, hqc⟩

/-- C1: for every task whose intervals are well-formed (valid datetimes,
each interval on one calendar day and forward-ordered, an unset end read
as `now`), `Task.minutes` returns, without touching the interval list,
the sum over all intervals of the whole-second difference between the
interval's end — or `now` when the end is unset — and its start, divided
by 60 as an exact rational (so fractional minutes are possible). -/
theorem C1_elapsed_minutes (t : Task) (now : PyDateTime)
    (h : ∀ p ∈ t.times, (p.1).valid ∧ (p.2.getD now).valid ∧
      pyDate (p.2.getD now) = pyDate p.1 ∧ toUsec p.1 ≤ toUsec (p.2.getD now)) :
    t.minutes now =
      .ok (((t.times.map
        (fun p => (toUsec (p.2.getD now) - toUsec p.1) / 1000000)).sum : ℚ) / 60) := by
  unfold Task.minutes
  rw [minutesAux_ok now t.times 0 h]
  simp [Except.map]

/-- C1 witness: a task with a 90-second closed interval and a 30-second
still-open one, read at a concrete `now`, yields 120 seconds / 60 = 2
fractional-capable minutes. -/
theorem C1_elapsed_minutes_witness :
    w1Task.minutes w1Now = .ok (((120 : Int) : ℚ) / 60) :=
  (C1_elapsed_minutes w1Task w1Now (by decide)).trans rfl

/-- C6 counterexample: a task whose single interval ends one minute
before it starts on the same calendar day.  The claim demands a hard
failure; the code instead returns successfully with the wrapped value
86340 / 60 minutes (Python `timedelta.seconds` wraps a negative
difference modulo one day), silently misreporting the interval. -/
theorem C6_counterexample :
    cex6Task.minutes cex6Now = Except.ok (((86340 : Int) : ℚ) / 60) := rfl

/-- C6 (amended): the elapsed-time computation raises its hard failure
(`RuntimeError`, the code's temporal-invariant error) exactly for
intervals whose end — or `now`, for an open interval — falls on a
different calendar day than the start; an end that merely predates its
start within the same day is NOT detected: the interval silently
contributes the wrapped value `(end - start + 86400000000) / 1000000`
seconds instead of failing. -/
theorem C6_temporal_amended (t : Task) (now : PyDateTime) :
    ((∃ p ∈ t.times, pyDate (p.2.getD now) ≠ pyDate p.1) →
      t.minutes now =
        .error (.runtimeError "We expect all end dates to happen in the same day")) ∧
    (∀ s e : PyDateTime, s.valid → e.valid → pyDate e = pyDate s →
      toUsec e < toUsec s → t.times = [(s, some e)] →
      t.minutes now =
        .ok ((((toUsec e - toUsec s + 86400000000) / 1000000 : Int) : ℚ) / 60)) := by
  constructor
  · intro h
    unfold Task.minutes
    rw [minutesAux_error now t.times 0 h]
    rfl
  · intro s e hs he hd hlt htimes
    unfold Task.minutes
    rw [htimes]
    simp only [minutesAux, Option.getD_some]
    rw [if_neg (by simpa using hd)]
    have hwrap : tdSeconds e s = (toUsec e - toUsec s + 86400000000) / 1000000 := by
      unfold tdSeconds
      have h1 := toUsec_sub_of_pyDate_eq hd
      have h2 := todUsec_lt s hs
      have h3 : (0 : Int) ≤ todUsec e := Int.ofNat_nonneg _
      have : (toUsec e - toUsec s) % 86400000000 = toUsec e - toUsec s + 86400000000 := by
        omega
      rw [this]
    rw [hwrap]
    simp [minutesAux, Except.map]

/-- C6 witness: an interval left open across midnight is read with `now`
on the next calendar day, and `minutes` raises the `RuntimeError`. -/
theorem C6_temporal_amended_witness :
    w6Task.minutes w6Now =
      .error (.runtimeError "We expect all end dates to happen in the same day") :=
  (C6_temporal_amended w6Task w6Now).1 (by decide)

/-- A nonempty list is its `dropLast` followed by its last element. -/
theorem mem_of_concat {α : Type} {l : List α} {q p : α}
    (hl : l.getLast? = some q) (hp : p ∈ l) : p ∈ l.dropLast ∨ p = q := by
  have hne : l ≠ [] := by
    intro h
    rw [h] at hl
    simp at hl
  have hdec : l.dropLast ++ [l.getLast hne] = l := List.dropLast_append_getLast hne
  have hq : l.getLast hne = q := by
    have := List.getLast?_eq_getLast l hne
    rw [hl] at this
    exact (Option.some.injEq _ _).mp this.symm
  rw [← hdec] at hp
  rcases List.mem_append.mp hp with h1 | h2
  · exact Or.inl h1
  · right
    rw [← hq]
    simpa using h2

/-- Under the invariant, a closed final interval makes every interval of
the list closed. -/
theorem timesInv_all_closed {l : List (PyDateTime × Option PyDateTime)}
    {s : PyDateTime} {e : PyDateTime} (hinv : timesInv l)
    (hl : l.getLast? = some (s, some e)) : ∀ p ∈ l, p.2 ≠ none := by
  intro p hp
  rcases mem_of_concat hl hp with h1 | h2
  · exact hinv p h1
  · rw [h2]
    simp

/-- Under the invariant, an open interval anywhere in the list is the
last element. -/
theorem timesInv_open_is_last {l : List (PyDateTime × Option PyDateTime)}
    {p : PyDateTime × Option PyDateTime} (hinv : timesInv l)
    (hp : p ∈ l) (hopen : p.2 = none) : l.getLast? = some p := by
  have hne : l ≠ [] := by
    intro h
    rw [h] at hp
    simp at hp
  have hdec : l.dropLast ++ [l.getLast hne] = l := List.dropLast_append_getLast hne
  rw [← hdec] at hp
  rcases List.mem_append.mp hp with h1 | h2
  · exact absurd hopen (hinv p h1)
  · rw [List.getLast?_eq_getLast l hne]
    have : p = l.getLast hne := by simpa using h2
    rw [this]

/-- Appending a closed interval to an all-closed list keeps the
invariant. -/
theorem timesInv_concat {l : List (PyDateTime × Option PyDateTime)}
    {x : PyDateTime × Option PyDateTime} (h : ∀ p ∈ l, p.2 ≠ none) :
    timesInv (l ++ [x]) := by
  intro p hp
  rw [List.dropLast_concat] at hp
  exact h p hp

/-- The guard-and-append tail of `start` preserves the invariant, whether
it returns or raises. -/
theorem startGuardAppend_inv (t1 : Task) (now : PyDateTime) (h : timesInv t1.times) :
    timesInv ((startGuardAppend t1 now).state).times := by
  unfold startGuardAppend
  rcases hl : t1.times.getLast? with _ | ⟨s, e⟩
  · have ht : t1.times = [] := by
      cases hc : t1.times with
      | nil => rfl
      | cons a rest => rw [hc] at hl; simp at hl
    show timesInv (t1.times ++ [(now, none)])
    rw [ht]
    intro p hp
    simp at hp
  · cases e with
    | none => exact h
    | some ee =>
      show timesInv (t1.times ++ [(now, none)])
      exact timesInv_concat (timesInv_all_closed h hl)

/-- The close-the-last-interval tail of `pause`/`complete` preserves the
invariant, whether it returns or raises. -/
theorem closeLast_inv (t1 : Task) (now : PyDateTime) (h : timesInv t1.times) :
    timesInv (((closeLast t1 now).state).1).times := by
  unfold closeLast
  rcases hl : t1.times.getLast? with _ | ⟨s, e⟩
  · exact h
  · cases e with
    | none =>
      show timesInv (t1.times.dropLast ++ [(s, some now)])
      intro p hp
      rw [List.dropLast_concat] at hp
      exact h p hp
    | some ee => exact h

/-- The status write of `start` does not touch the interval list. -/
theorem start_pre_times (t : Task) :
    (if t.status = TaskStates.CREATED ∨ t.status = TaskStates.PAUSED then
      { t with status := TaskStates.RUNNING }
    else t).times = t.times := by
  split <;> rfl

/-- C2: on any task satisfying the spec's interval invariant (every
interval before the last is closed, hence at most one open interval and
only in last position), each of `start`, `pause`, `complete` and
`add_note` leaves a state — normal return or state at the raise — that
still satisfies the invariant; and an attempt to open a new interval via
`start` while one is already open fails with the invalid-state error
(Python `TypeError`, the exception the spec calls `InvalidStateError`). -/
theorem C2_invariant_preserved (t : Task) (now : PyDateTime) (note : String)
    (h : t.intervalsInv) :
    ((t.start now).state).intervalsInv ∧
    ((t.pause now).state.1).intervalsInv ∧
    ((t.complete now).state.1).intervalsInv ∧
    (t.add_note note).intervalsInv ∧
    ((∃ p ∈ t.times, p.2 = none) → ∃ t1, t.start now = .exn .typeError t1) := by
  refine ⟨?_, ?_, ?_, ?_, ?_⟩
  · unfold Task.start
    apply startGuardAppend_inv
    rw [start_pre_times]
    exact h
  · unfold Task.pause
    split
    · exact h
    · exact closeLast_inv _ now h
  · unfold Task.complete
    split
    · exact h
    · exact closeLast_inv _ now h
  · exact h
  · intro ⟨p, hp, hopen⟩
    have hlast := timesInv_open_is_last h hp hopen
    unfold Task.start startGuardAppend
    obtain ⟨s, e⟩ := p
    cases hopen
    rw [start_pre_times t, hlast]
    exact ⟨_, rfl⟩

/-- C2 witness: a running task with one open interval satisfies the
invariant, and pausing it leaves a state that still satisfies it. -/
theorem C2_invariant_preserved_witness :
    ((w2Task.pause w2Now).state.1).intervalsInv :=
  (C2_invariant_preserved w2Task w2Now "x" (by decide)).2.1

/-- C3 counterexample: calling `start()` on a `COMPLETED` task (whose last
interval is closed) is NOT rejected — it succeeds, appends a fresh open
interval, and leaves the status `COMPLETED`, so the claim that for a task
in status `Completed` "the transition is not permitted and the task's
interval list is not extended" is false on the code. -/
theorem C3_counterexample :
    cex3Task.start cex3Now =
      .ok { cex3Task with times := cex3Task.times ++ [(cex3Now, none)] } ∧
    ((cex3Task.start cex3Now).state).status = TaskStates.COMPLETED ∧
    ((cex3Task.start cex3Now).state).times.length = 2 := by decide

/-- C3 (amended): `start()` promotes the status to `Running` only from
`Created` or `Paused` (leaving any other status untouched); independently
of the status it appends exactly one new open interval `(now, open)`
whenever the last existing interval (if any) is closed — in particular it
does extend a `Completed` task's interval list — and it fails with the
invalid-state `TypeError` (leaving the interval list unextended) exactly
when the last interval is still open, which is the reachable `Running`
case. -/
theorem C3_start_amended (t : Task) (now : PyDateTime) :
    (lastOpenB t.times = false →
      t.start now = .ok { t with
        status := if t.status = TaskStates.CREATED ∨ t.status = TaskStates.PAUSED then
          TaskStates.RUNNING else t.status,
        times := t.times ++ [(now, none)] }) ∧
    (lastOpenB t.times = true →
      t.start now = .exn .typeError { t with
        status := if t.status = TaskStates.CREATED ∨ t.status = TaskStates.PAUSED then
          TaskStates.RUNNING else t.status }) := by
  have hsplit : (if t.status = TaskStates.CREATED ∨ t.status = TaskStates.PAUSED then
      { t with status := TaskStates.RUNNING } else t) =
      { t with status := if t.status = TaskStates.CREATED ∨ t.status = TaskStates.PAUSED then
        TaskStates.RUNNING else t.status } := by
    split <;> rfl
  constructor
  · intro hcl
    unfold Task.start startGuardAppend
    rw [hsplit]
    unfold lastOpenB at hcl
    rcases hl : t.times.getLast? with _ | ⟨s, e⟩
    · rfl
    · cases e with
      | none => rw [hl] at hcl; simp at hcl
      | some ee => rfl
  · intro hop
    unfold Task.start startGuardAppend
    rw [hsplit]
    unfold lastOpenB at hop
    rcases hl : t.times.getLast? with _ | ⟨s, e⟩
    · rw [hl] at hop; simp at hop
    · cases e with
      | none => rfl
      | some ee => rw [hl] at hop; simp at hop

/-- C3 witness: starting a freshly created task promotes it to `RUNNING`
and appends the single open interval. -/
theorem C3_start_amended_witness :
    w3Task.start w3Now = .ok ⟨"w3", "fresh", "RUNNING", [(w3Now, none)], []⟩ :=
  ((C3_start_amended w3Task w3Now).1 (by decide)).trans (by decide)

/-- C4: `pause()` and `complete()` on a task that is not `Running` print
the "Task is not running" notice and change nothing — no status change,
no interval change, no exception; on a `Running` task with an open last
interval they set the status to `Paused` (resp. `Completed`) and close
exactly that last interval by setting its end to `now`, leaving every
earlier interval unchanged; and on a `Running` task whose last interval
is already closed they fail with the invalid-state `TypeError` (Python's
exception for the spec's `InvalidStateError`). -/
theorem C4_pause_complete (t : Task) (now : PyDateTime) :
    (t.status ≠ TaskStates.RUNNING →
      t.pause now = .ok (t, ["Task is not running"]) ∧
      t.complete now = .ok (t, ["Task is not running"])) ∧
    (t.status = TaskStates.RUNNING →
      (∀ l s, t.times = l ++ [(s, none)] →
        t.pause now =
          .ok ({ t with status := TaskStates.PAUSED, times := l ++ [(s, some now)] }, []) ∧
        t.complete now =
          .ok ({ t with status := TaskStates.COMPLETED, times := l ++ [(s, some now)] }, [])) ∧
      (∀ l s e, t.times = l ++ [(s, some e)] →
        t.pause now = .exn .typeError ({ t with status := TaskStates.PAUSED }, []) ∧
        t.complete now = .exn .typeError ({ t with status := TaskStates.COMPLETED }, []))) := by
  constructor
  · intro hns
    constructor
    · unfold Task.pause
      rw [if_pos hns]
    · unfold Task.complete
      rw [if_pos hns]
  · intro hs
    constructor
    · intro l s htimes
      constructor
      · unfold Task.pause
        rw [if_neg (by simp [hs])]
        unfold closeLast
        rw [show ({ t with status := TaskStates.PAUSED } : Task).times = t.times from rfl,
          htimes]
        simp only [List.getLast?_concat, List.dropLast_concat]
      · unfold Task.complete
        rw [if_neg (by simp [hs])]
        unfold closeLast
        rw [show ({ t with status := TaskStates.COMPLETED } : Task).times = t.times from rfl,
          htimes]
        simp only [List.getLast?_concat, List.dropLast_concat]
    · intro l s e htimes
      constructor
      · unfold Task.pause
        rw [if_neg (by simp [hs])]
        unfold closeLast
        rw [show ({ t with status := TaskStates.PAUSED } : Task).times = t.times from rfl,
          htimes]
        simp only [List.getLast?_concat]
      · unfold Task.complete
        rw [if_neg (by simp [hs])]
        unfold closeLast
        rw [show ({ t with status := TaskStates.COMPLETED } : Task).times = t.times from rfl,
          htimes]
        simp only [List.getLast?_concat]

/-- C4 witness: pausing a running task closes exactly the open last
interval with `now` and keeps the earlier interval untouched. -/
theorem C4_pause_complete_witness :
    w4Task.pause w4Now =
      .ok (⟨"w4", "being tracked", "PAUSED",
        [(⟨2024, 7, 3, 9, 0, 0, 0⟩, some ⟨2024, 7, 3, 9, 10, 0, 0⟩),
         (⟨2024, 7, 3, 9, 20, 0, 0⟩, some w4Now)], []⟩, []) :=
  ((((C4_pause_complete w4Task w4Now).2 (by decide)).1
    [(⟨2024, 7, 3, 9, 0, 0, 0⟩, some ⟨2024, 7, 3, 9, 10, 0, 0⟩)]
    ⟨2024, 7, 3, 9, 20, 0, 0⟩ (by decide)).1).trans (by decide)

/-- C5 counterexample: a well-formed record using the spec's lowercase
`"none"` open-end sentinel does not round-trip: `deserialize` accepts it,
but `serialize` re-emits the sentinel as `str(None) = "None"`, so
`serialize(deserialize(x)) ≠ x`. -/
theorem C5_counterexample :
    Except.map TomlHelper.serialize (TomlHelper.deserialize cex5Rec) =
      Except.ok ⟨"u5", "roundtrip", "CREATED", [("2024-07-03T10:00", "None")], []⟩ ∧
    Except.map TomlHelper.serialize (TomlHelper.deserialize cex5Rec) ≠
      Except.ok cex5Rec := by decide

/-- Lowercasing the capital-N sentinel gives the lowercase sentinel. -/
theorem pyLower_None : pyLower "None" = "none" := by decide

/-- Re-serializing a truncated closed end prints the original format. -/
theorem serializeEnd_trunc (e : PyDateTime) :
    serializeEnd (some (truncateTs e)) = fmtDateTime e :=
  fmtDateTime_truncateTs e

/-- On a list of well-formed serialized interval pairs, parsing succeeds
and re-serializing the parsed pairs reproduces the list. -/
theorem parseTimes_roundtrip :
    ∀ l : List (String × String),
    (∀ p ∈ l, canonicalTs p.1 ∧ (p.2 = "None" ∨ canonicalTs p.2)) →
    ∃ ts, parseTimes l = .ok ts ∧
      ts.map (fun p => (fmtDateTime p.1, serializeEnd p.2)) = l := by
  intro l
  induction l with
  | nil => intro _; exact ⟨[], rfl, rfl⟩
  | cons p rest ih =>
    intro h
    obtain ⟨⟨d, hd, _, _, hfmt⟩, hend⟩ := h p (List.mem_cons_self p rest)
    obtain ⟨ts, hts, hmap⟩ := ih (fun q hq => h q (List.mem_cons_of_mem _ hq))
    obtain ⟨x, y⟩ := p
    simp only at hfmt hend
    rcases hend with hy | ⟨e, he, _, _, hyfmt⟩
    · refine ⟨(truncateTs d, none) :: ts, ?_, ?_⟩
      · unfold parseTimes
        rw [← hfmt, parseDateTime_fmtDateTime d hd, hy, pyLower_None, hts]
        rfl
      · rw [List.map_cons, hmap, fmtDateTime_truncateTs d, hfmt, hy]
        rfl
    · refine ⟨(truncateTs d, some (truncateTs e)) :: ts, ?_, ?_⟩
      · unfold parseTimes
        rw [← hfmt, parseDateTime_fmtDateTime d hd, ← hyfmt, hts]
        simp only []
        rw [if_neg (pyLower_fmtDateTime_ne e), parseDateTime_fmtDateTime e he]
      · rw [List.map_cons, hmap, fmtDateTime_truncateTs d, hfmt, serializeEnd_trunc e, hyfmt]

/-- C5 (amended): `serialize(deserialize(x)) = x` holds for every
well-formed serialized task record whose open-end sentinel is written
exactly `"None"` — the spelling `str(None)` that `serialize` itself
emits — with identifier, description, status, canonical minute-precision
timestamps and notes all preserved.  Records using other sentinel
casings such as the lowercase `"none"` are accepted by `deserialize` but
re-serialized as `"None"`, so they do not round-trip byte-identically. -/
theorem C5_roundtrip_amended (r : TaskRecord) (h : r.wellFormedRT) :
    Except.map TomlHelper.serialize (TomlHelper.deserialize r) = Except.ok r := by
  obtain ⟨ts, hts, hmap⟩ := parseTimes_roundtrip r.times h
  unfold TomlHelper.deserialize
  rw [hts]
  unfold TomlHelper.serialize
  simp only [Except.map]
  cases r
  simp only at hmap
  simp [hmap]

/-- C5 witness: a record with one closed and one open interval (capital-N
sentinel) round-trips exactly. -/
theorem C5_roundtrip_amended_witness :
    Except.map TomlHelper.serialize (TomlHelper.deserialize w5Rec) = Except.ok w5Rec :=
  C5_roundtrip_amended w5Rec (by
    intro p hp
    simp only [w5Rec, List.mem_cons, List.not_mem_nil, or_false] at hp
    rcases hp with hp | hp
    · subst hp
      exact ⟨⟨⟨2024, 7, 3, 10, 0, 0, 0⟩, by decide, rfl, rfl, by decide⟩,
        Or.inr ⟨⟨2024, 7, 3, 10, 30, 0, 0⟩, by decide, rfl, rfl, by decide⟩⟩
    · subst hp
      exact ⟨⟨⟨2024, 7, 3, 11, 0, 0, 0⟩, by decide, rfl, rfl, by decide⟩, Or.inl rfl⟩)

/-- A map is the identity on a list exactly when it fixes every member. -/
theorem list_map_fix {α : Type} (f : α → α) :
    ∀ l : List α, l.map f = l ↔ ∀ x ∈ l, f x = x := by
  intro l
  induction l with
  | nil => simp
  | cons a as ih => simp [ih]

/-- Parsing what `serialize` printed for a valid interval list yields the
same list with every timestamp truncated to minute precision. -/
theorem parseTimes_serialized :
    ∀ l : List (PyDateTime × Option PyDateTime),
    (∀ p ∈ l, p.1.valid ∧ endValid p.2) →
    parseTimes (l.map (fun p => (fmtDateTime p.1, serializeEnd p.2))) =
      .ok (l.map (fun p => (truncateTs p.1, p.2.map truncateTs))) := by
  intro l
  induction l with
  | nil => intro _; rfl
  | cons p rest ih =>
    intro h
    obtain ⟨hs, he⟩ := h p (List.mem_cons_self p rest)
    have hrest := ih (fun q hq => h q (List.mem_cons_of_mem _ hq))
    obtain ⟨s, e⟩ := p
    cases e with
    | none =>
      simp only [List.map_cons]
      unfold parseTimes
      rw [parseDateTime_fmtDateTime s hs]
      rw [show serializeEnd none = "None" from rfl, pyLower_None, hrest]
      rfl
    | some ee =>
      have hee : ee.valid := he
      simp only [List.map_cons]
      unfold parseTimes
      rw [parseDateTime_fmtDateTime s hs]
      rw [show serializeEnd (some ee) = fmtDateTime ee from rfl, hrest]
      simp only []
      rw [if_neg (pyLower_fmtDateTime_ne ee), parseDateTime_fmtDateTime ee hee]
      rfl

/-- Truncation fixes a datetime exactly when its seconds and microseconds
are already zero. -/
theorem truncateTs_fix (d : PyDateTime) :
    truncateTs d = d ↔ d.second = 0 ∧ d.usec = 0 := by
  cases d with
  | mk y mo dd hh mi se us =>
    constructor
    · intro h
      have h6 : (0 : Nat) = se := congrArg PyDateTime.second h
      have h7 : (0 : Nat) = us := congrArg PyDateTime.usec h
      exact ⟨h6.symm, h7.symm⟩
    · intro hh2
      have hs : se = 0 := hh2.1
      have hu : us = 0 := hh2.2
      subst hs
      subst hu
      rfl

/-- C9: serialization formats timestamps without seconds or sub-second
parts, so `deserialize(serialize(t))` yields `t` with every interval
timestamp truncated to minute precision; it reproduces `t` exactly if
and only if every timestamp of `t` already has zero seconds and zero
microseconds. -/
theorem C9_reverse_roundtrip (t : Task)
    (h : ∀ p ∈ t.times, p.1.valid ∧ endValid p.2) :
    TomlHelper.deserialize (TomlHelper.serialize t) =
      .ok { t with times := t.times.map (fun p => (truncateTs p.1, p.2.map truncateTs)) } ∧
    (TomlHelper.deserialize (TomlHelper.serialize t) = .ok t ↔
      ∀ p ∈ t.times, (p.1.second = 0 ∧ p.1.usec = 0) ∧
        (∀ e, p.2 = some e → e.second = 0 ∧ e.usec = 0)) := by
  have h1 : TomlHelper.deserialize (TomlHelper.serialize t) =
      .ok { t with times := t.times.map (fun p => (truncateTs p.1, p.2.map truncateTs)) } := by
    unfold TomlHelper.serialize TomlHelper.deserialize
    simp only
    rw [parseTimes_serialized t.times h]
  refine ⟨h1, ?_⟩
  rw [h1]
  constructor
  · intro heq
    have : t.times.map (fun p => (truncateTs p.1, p.2.map truncateTs)) = t.times := by
      have := (Except.ok.injEq _ _).mp heq
      cases t
      simpa using congrArg Task.times this
    intro p hp
    have hfix := (list_map_fix _ t.times).mp this p hp
    obtain ⟨s, e⟩ := p
    have hs : truncateTs s = s := congrArg Prod.fst hfix
    have he : e.map truncateTs = e := congrArg Prod.snd hfix
    refine ⟨(truncateTs_fix s).mp hs, ?_⟩
    intro ee hee
    have hee' : e = some ee := hee
    rw [hee'] at he
    have he' : some (truncateTs ee) = some ee := he
    exact (truncateTs_fix ee).mp ((Option.some.injEq _ _).mp he')
  · intro hz
    have : t.times.map (fun p => (truncateTs p.1, p.2.map truncateTs)) = t.times := by
      apply (list_map_fix _ t.times).mpr
      intro p hp
      obtain ⟨⟨hs1, hs2⟩, he⟩ := hz p hp
      obtain ⟨s, e⟩ := p
      have h1' : truncateTs s = s := (truncateTs_fix s).mpr ⟨hs1, hs2⟩
      have h2' : e.map truncateTs = e := by
        cases e with
        | none => rfl
        | some ee =>
          have h3 := (truncateTs_fix ee).mpr (he ee rfl)
          show some (truncateTs ee) = some ee
          rw [h3]
      show (truncateTs s, e.map truncateTs) = (s, e)
      rw [h1', h2']
    rw [this]

/-- C9 witness: a task whose timestamps carry live seconds/microseconds
deserializes from its own serialization to the minute-truncated task —
not to itself. -/
theorem C9_reverse_roundtrip_witness :
    TomlHelper.deserialize (TomlHelper.serialize w9Task) =
      .ok ⟨"w9", "live timestamps", "COMPLETED",
        [(⟨2024, 7, 3, 10, 0, 0, 0⟩, some ⟨2024, 7, 3, 10, 1, 0, 0⟩)], []⟩ :=
  ((C9_reverse_roundtrip w9Task (by decide)).1).trans (by decide)

/-- C7: task lookup by identifier fragment within the working date's task
list: with the date's list present, zero substring matches fail with the
"No tasks found" `LookupError` (the spec's `NotFoundError`) and more than
one match fails with the "More than 1 task found" `LookupError` (the
spec's `AmbiguousError`), in both cases leaving the persisted store
untouched; a unique match selects exactly the task whose identifier
contains the fragment, and the update then proceeds on that task alone. -/
theorem C7_find_task (store : List (String × List Task)) (key frag : String)
    (a : Actions) (note : Option String) (now : PyDateTime) (ts : List Task)
    (hk : store.lookup key = some ts) :
    (ts.filter (fun x => pyIn frag x.uuid) = [] →
      TomlDocument.update_task store key frag a note now =
        .exn (.lookupError ("No tasks found. Try to use the correct uuid. Used " ++ frag))
          store) ∧
    (2 ≤ (ts.filter (fun x => pyIn frag x.uuid)).length →
      TomlDocument.update_task store key frag a note now =
        .exn (.lookupError ("More than 1 task found. Try to add more text to your uuid. Used " ++ frag))
          store) ∧
    (∀ tk, ts.filter (fun x => pyIn frag x.uuid) = [tk] →
      pyIn frag tk.uuid = true ∧ tk ∈ ts ∧
      TomlDocument.update_task store key frag a note now =
        (match applyAction tk a note now with
         | .ok p => .ok (replaceStore store key frag p.1)
         | .exn er _ => .exn er store)) := by
  refine ⟨?_, ?_, ?_⟩
  · intro hf
    unfold TomlDocument.update_task
    rw [hk]
    simp only []
    rw [hf]
  · intro hf
    unfold TomlDocument.update_task
    rw [hk]
    simp only []
    rcases hfil : ts.filter (fun x => pyIn frag x.uuid) with _ | ⟨t1, tl⟩
    · rw [hfil] at hf
      simp at hf
    · cases tl with
      | nil =>
        rw [hfil] at hf
        simp at hf
      | cons t2 tl2 =>
        rw [hfil]
  · intro tk hf
    refine ⟨?_, ?_, ?_⟩
    · have : tk ∈ ts.filter (fun x => pyIn frag x.uuid) := by
        rw [hf]
        exact List.mem_singleton.mpr rfl
      exact (List.mem_filter.mp this).2
    · have : tk ∈ ts.filter (fun x => pyIn frag x.uuid) := by
        rw [hf]
        exact List.mem_singleton.mpr rfl
      exact (List.mem_filter.mp this).1
    · unfold TomlDocument.update_task
      rw [hk]
      simp only []
      rw [hf]
      simp only []
      rcases applyAction tk a note now with ⟨tk1, out⟩ | ⟨er, st⟩ <;> rfl

/-- C7 witness: a fragment matching no task identifier in the date's list
fails with the "No tasks found" lookup error and the store is returned
unchanged. -/
theorem C7_find_task_witness :
    TomlDocument.update_task w7Store "2024-07-03" "zzz" .start none ⟨2024, 7, 3, 8, 0, 0, 0⟩ =
      .exn (.lookupError ("No tasks found. Try to use the correct uuid. Used " ++ "zzz"))
        w7Store :=
  (C7_find_task w7Store "2024-07-03" "zzz" .start none ⟨2024, 7, 3, 8, 0, 0, 0⟩ w7Tasks
    (by decide)).1 (by decide)

/-- C10: applying a lifecycle action on a working date that has no task
list in the store at all raises the `KeyError` of the dict lookup — for
any fragment, before any fragment matching happens — while a present but
unmatched list raises the distinct "No tasks found" `LookupError`; the
two failures are different errors and both leave the store unchanged. -/
theorem C10_missing_date (store : List (String × List Task)) (key frag : String)
    (a : Actions) (note : Option String) (now : PyDateTime) :
    (store.lookup key = none →
      TomlDocument.update_task store key frag a note now = .exn (.keyError key) store) ∧
    (∀ ts, store.lookup key = some ts → ts.filter (fun x => pyIn frag x.uuid) = [] →
      TomlDocument.update_task store key frag a note now =
        .exn (.lookupError ("No tasks found. Try to use the correct uuid. Used " ++ frag))
          store) ∧
    (∀ k msg, (PyErr.keyError k) ≠ (PyErr.lookupError msg)) := by
  refine ⟨?_, ?_, ?_⟩
  · intro hk
    unfold TomlDocument.update_task
    rw [hk]
  · intro ts hk hf
    unfold TomlDocument.update_task
    rw [hk]
    simp only []
    rw [hf]
  · intro k msg
    intro h
    exact PyErr.noConfusion h

/-- C10 witness: acting on 2024-07-05, a date with no list in the store,
raises `KeyError` for that date key even though a task with a matching
identifier exists under another date. -/
theorem C10_missing_date_witness :
    TomlDocument.update_task w10Store "2024-07-05" "aaa" .start none ⟨2024, 7, 5, 8, 0, 0, 0⟩ =
      .exn (.keyError "2024-07-05") w10Store :=
  (C10_missing_date w10Store "2024-07-05" "aaa" .start none ⟨2024, 7, 5, 8, 0, 0, 0⟩).1
    (by decide)

/-- C8: the scan run on 2024-07-04 collects, for the prior date
2024-07-03, exactly the task left `RUNNING` — the `COMPLETED` one is not
flagged and today's incomplete task is not flagged — but the error
REPORT then crashes: rendering calls `t.report()`, a method the `Task`
class does not define, so the run raises `AttributeError` right after
printing the date header and the flagged task never appears in any
report. -/
theorem C8_error_scan :
    TomlDocument.errorsDict store8 "2024-07-04" = [("2024-07-03", [runTask8])] ∧
    TomlDocument.errors store8 "2024-07-04" =
      .exn (.attributeError "report") ["\x1b[1;33m" ++ "2024-07-03" ++ "\x1b[0m"] := by
  decide

end GnWorkLog
